import Mathlib

/-!
Verification of the ela-lib migration/gateway sources against their
natural-language specification.  The Go sources are shallowly embedded:
strings are kept as `String` or `List Char` (URI paths), Go maps
(`map[string]interface{}`) are association lists `List (String × α)`,
JSON trees are the inductive `JsonValue`, fallible Go code returns
`Except`/`Option` (`Option.none` models a Go panic), and Go `uint`
is `Nat`.
-/

set_option maxHeartbeats 1000000

/-! ## Association-list maps (Go `map[string]V`, serialized field order) -/

/-- Lookup of a key in an association list (Go map read `m[k]`). -/
def lookupField (k : String) : List (String × α) → Option α
  | [] => none
  | (k1, v) :: rest => if k1 = k then some v else lookupField k rest

/-- Go map assignment `m[k] = v`: replace the binding in place when the key
is present, otherwise append a fresh binding. -/
def setField (m : List (String × α)) (k : String) (v : α) : List (String × α) :=
  if (lookupField k m).isSome then
    m.map (fun kv => if kv.1 = k then (k, v) else kv)
  else
    m ++ [(k, v)]

/-- Go `delete(m, k)`. -/
def removeField (m : List (String × α)) (k : String) : List (String × α) :=
  m.filter (fun kv => kv.1 ≠ k)

/-- The keys of an association list. -/
def mapKeys (m : List (String × α)) : List String := m.map Prod.fst

theorem lookupField_isSome_iff_mem_keys (k : String) (m : List (String × α)) :
    (lookupField k m).isSome ↔ k ∈ mapKeys m := by
  induction m with
  | nil => simp [lookupField, mapKeys]
  | cons kv rest ih =>
    obtain ⟨k1, v⟩ := kv
    by_cases h : k1 = k <;> simp [lookupField, mapKeys, h, ih]
    exact fun h1 => (h h1.symm).elim

theorem lookupField_append_not_mem (k : String) (m m2 : List (String × α))
    (h : (lookupField k m).isSome = false) :
    lookupField k (m ++ m2) = lookupField k m2 := by
  induction m with
  | nil => rfl
  | cons kv rest ih =>
    obtain ⟨k1, v⟩ := kv
    by_cases hk : k1 = k
    · simp [lookupField, hk] at h
    · simp only [lookupField, List.cons_append, hk, if_false]
      exact ih (by simpa [lookupField, hk] using h)

theorem lookupField_append_of_isSome (k : String) (m m2 : List (String × α))
    (h : (lookupField k m).isSome) :
    lookupField k (m ++ m2) = lookupField k m := by
  induction m with
  | nil => simp [lookupField] at h
  | cons kv rest ih =>
    obtain ⟨k1, v⟩ := kv
    by_cases hk : k1 = k
    · simp [lookupField, hk]
    · simp only [lookupField, List.cons_append, hk, if_false]
      exact ih (by simpa [lookupField, hk] using h)

/-! ## JSON value trees -/

/-- A decoded JSON value (Go `interface{}` after `json.Unmarshal` /
`gjson.ParseBytes(...).Value()`).  Numbers are modelled as integers; no
claim in scope depends on non-integral numerics. -/
inductive JsonValue where
  | null : JsonValue
  | bool (b : Bool) : JsonValue
  | num (n : Int) : JsonValue
  | str (s : String) : JsonValue
  | arr (elems : List JsonValue) : JsonValue
  | obj (fields : List (String × JsonValue)) : JsonValue
deriving Repr, BEq, Inhabited

/-- Fields of a JSON object; non-objects have none (a failed Go type
assertion `v.(map[string]interface{})`). -/
def JsonValue.objFields : JsonValue → Option (List (String × JsonValue))
  | .obj fields => some fields
  | _ => none

/-! ## Go string helpers -/

/-- `strings.Split(s, "/")` restricted to a one-character separator, over
`List Char`: all substrings between separators, empties kept. -/
def splitOnChar (sep : Char) : List Char → List (List Char)
  | [] => [[]]
  | c :: cs =>
    let rest := splitOnChar sep cs
    if c = sep then [] :: rest
    else
      match rest with
      | [] => [[c]]
      | seg :: segs => (c :: seg) :: segs

theorem splitOnChar_ne_nil (sep : Char) (l : List Char) : splitOnChar sep l ≠ [] := by
  induction l with
  | nil => simp [splitOnChar]
  | cons c cs ih =>
    simp only [splitOnChar]
    split
    · simp
    · cases h : splitOnChar sep cs with
      | nil => simp
      | cons seg segs => simp [h]

theorem splitOnChar_length (sep : Char) (l : List Char) :
    (splitOnChar sep l).length = 1 + l.count sep := by
  induction l with
  | nil => simp [splitOnChar]
  | cons c cs ih =>
    simp only [splitOnChar]
    by_cases h : c = sep
    · rw [if_pos h]
      subst h
      simp only [List.length_cons, List.count_cons_self, ih]
      omega
    · simp only [h, if_false]
      rw [List.count_cons_of_ne (fun hs => h hs.symm)]
      cases hr : splitOnChar sep cs with
      | nil => exact absurd hr (splitOnChar_ne_nil sep cs)
      | cons seg segs =>
        rw [hr] at ih
        simp only [List.length_cons] at ih ⊢
        omega

/-- `strings.HasSuffix(s, suffix)`: does `s` end with `suffix`?  Mirrors
the Go argument order. -/
def goHasSuffix (s suffix : List Char) : Bool := suffix.isSuffixOf s

theorem goHasSuffix_eq_true_iff (s suffix : List Char) :
    goHasSuffix s suffix = true ↔ suffix <:+ s := by
  simp [goHasSuffix, List.isSuffixOf_iff_suffix]

/-- `strings.HasPrefix(s, px)`: does `s` start with `px`? (Over `String`.) -/
def goStrHasPrefix (s px : String) : Bool := px.data.isPrefixOf s.data

/-- `strings.Join(parts, "/")` over `List Char` segments. -/
def joinSlash : List (List Char) → List Char
  | [] => []
  | [seg] => seg
  | seg :: rest => seg ++ '/' :: joinSlash rest

/-- Whitespace as recognized by `strings.Fields` (ASCII fragment of
`unicode.IsSpace`; the catalogue lines in scope are ASCII). -/
def isGoSpace (c : Char) : Bool :=
  c = ' ' ∨ c = '\t' ∨ c = '\n' ∨ c = '\x0b' ∨ c = '\x0c' ∨ c = '\r'

/-- Splitting a character list at every character satisfying `p`,
empties kept (the generalization of `splitOnChar` to a predicate). -/
def splitOnPred (p : Char → Bool) : List Char → List (List Char)
  | [] => [[]]
  | c :: cs =>
    let rest := splitOnPred p cs
    if p c then [] :: rest
    else
      match rest with
      | [] => [[c]]
      | seg :: segs => (c :: seg) :: segs

/-- `strings.Fields(s)`: whitespace-separated fields, empties dropped. -/
def goFields (s : String) : List String :=
  ((splitOnPred isGoSpace s.data).filter (fun f => f ≠ [])).map (fun f => String.mk f)

/-! ## Generic suffix lemmas used by the URI-classifier proofs -/

theorem suffix_of_append_right (xs b : List Char) : b <:+ xs ++ b := ⟨xs, rfl⟩

theorem suffix_total_of_common (a b xs : List Char) (h : a <:+ xs ++ b) :
    a <:+ b ∨ b <:+ a :=
  List.suffix_or_suffix_of_suffix h (suffix_of_append_right xs b)

/-! ## Gateway: the REST actions and the URI classifier
(`src/service/gateway/gateway.go`, `ESGateway.parseUriPath`) -/

/-- The `es.RequestActionXXX` constants; `noAction` is the Go zero value
(the field left unset). -/
inductive RequestAction where
  | noAction
  | getInfo
  | createDocument
  | updateDocument
  | search
  | searchLimit
  | clusterHealth
  | clusterSettings
  | getIndexMapping
  | updateIndexMapping
  | getIndexSettings
  | updateIndexSettings
  | bulk
  | getIndex
  | createIndex
  | deleteIndex
  | document
  | upsertDocument
  | deleteDocument
deriving Repr, DecidableEq

/-- `es.UriPathParserResult`; defaults are the Go zero values. -/
structure UriPathParserResult where
  httpAction : String := ""
  uri : List Char := []
  requestAction : RequestAction := .noAction
  index : List Char := []
  indexType : List Char := []
  documentId : List Char := []
deriving Repr, DecidableEq

/-- The shared tail of the `_create` and `_update` branches of
`ESGateway.parseUriPath` (gateway.go lines 105-118 and 122-135; the two
blocks are textually identical): read `segments[1]` as the index and, for
5 or 4 segments, also the type and document id.  `Option.none` models the
Go index-out-of-range panic of `segments[1]`. -/
def parseDocSuffixBranch (httpAction : String) (uriPath : List Char) (needType : Bool)
    (ra : RequestAction) (segments : List (List Char)) : Option UriPathParserResult :=
  (segments.get? 1).bind fun seg1 =>
    if segments.length = 5 then
      (segments.get? 2).bind fun seg2 =>
      (segments.get? 3).bind fun seg3 =>
      some { httpAction := httpAction,
             uri := if needType then uriPath
                    else joinSlash (segments.take 2 ++ segments.drop 3),
             requestAction := ra, index := seg1, indexType := seg2, documentId := seg3 }
    else if segments.length = 4 then
      (segments.get? 2).bind fun seg2 =>
      some { httpAction := httpAction, uri := uriPath, requestAction := ra,
             index := seg1, documentId := seg2 }
    else
      some { httpAction := httpAction, uri := uriPath, requestAction := ra, index := seg1 }

/-- The shared tail of the `_search` and `_mapping` branches of
`ESGateway.parseUriPath` (lines 148-155 and 181-187, textually identical):
index from `segments[1]`, type from `segments[2]` when 4 segments. -/
def parseTypeSuffixBranch (httpAction : String) (uriPath : List Char) (needType : Bool)
    (ra : RequestAction) (segments : List (List Char)) : Option UriPathParserResult :=
  (segments.get? 1).bind fun seg1 =>
    if segments.length = 4 then
      (segments.get? 2).bind fun seg2 =>
      some { httpAction := httpAction,
             uri := if needType then uriPath
                    else joinSlash (segments.take 2 ++ segments.drop 3),
             requestAction := ra, index := seg1, indexType := seg2 }
    else
      some { httpAction := httpAction, uri := uriPath, requestAction := ra, index := seg1 }

/-- The final document branch of `ESGateway.parseUriPath`
(lines 243-252, entered when `len(segments) >= 3`). -/
def parseDocIdBranch (httpAction : String) (uriPath : List Char) (needType : Bool)
    (ra : RequestAction) (segments : List (List Char)) : Option UriPathParserResult :=
  (segments.get? 1).bind fun seg1 =>
    if segments.length = 4 then
      (segments.get? 2).bind fun seg2 =>
      (segments.get? 3).bind fun seg3 =>
      some { httpAction := httpAction,
             uri := if needType then uriPath
                    else joinSlash (segments.take 2 ++ segments.drop 3),
             requestAction := ra, index := seg1, indexType := seg2, documentId := seg3 }
    else if segments.length = 3 then
      (segments.get? 2).bind fun seg2 =>
      some { httpAction := httpAction, uri := uriPath, requestAction := ra,
             index := seg1, documentId := seg2 }
    else
      some { httpAction := httpAction, uri := uriPath, requestAction := ra, index := seg1 }

/-- A branch of `ESGateway.parseUriPath` that only sets the request
action (`GET /`, the `_cluster` paths and the `_bulk` branch). -/
def parseSimpleBranch (httpAction : String) (uriPath : List Char) (ra : RequestAction) :
    Option UriPathParserResult :=
  some { httpAction := httpAction, uri := uriPath, requestAction := ra }

/-- A branch of `ESGateway.parseUriPath` that sets the action and the
index from `segments[1]` (`/_settings` branch and the two-segment index
branch); `none` models the `segments[1]` panic. -/
def parseIndexOnlyBranch (httpAction : String) (uriPath : List Char) (ra : RequestAction)
    (segments : List (List Char)) : Option UriPathParserResult :=
  (segments.get? 1).bind fun seg1 =>
    some { httpAction := httpAction, uri := uriPath, requestAction := ra, index := seg1 }

/-- Version test of gateway.go lines 89-93: a `5.` or `6.` cluster
version needs mapping types. -/
def clusterNeedType (clusterVersion : String) : Bool :=
  goStrHasPrefix clusterVersion "5." || goStrHasPrefix clusterVersion "6."

/-- `ESGateway.parseUriPath` (gateway.go lines 84-256).  The `es.ES`
argument only contributes its cluster version (lines 89-93).  The result
is `none` where the Go code would panic on `segments[1]` or return the
final `invalid uri` error. -/
def parseUriPath (httpAction : String) (uriPath : List Char) (clusterVersion : String) :
    Option UriPathParserResult :=
  if uriPath = "/".data ∧ httpAction = "GET" then
    parseSimpleBranch httpAction uriPath .getInfo
  else if goHasSuffix ("/_create".data) uriPath then
    parseDocSuffixBranch httpAction uriPath (clusterNeedType clusterVersion)
      (if httpAction = "POST" then .createDocument else .noAction)
      (splitOnChar '/' uriPath)
  else if goHasSuffix ("/_update".data) uriPath then
    parseDocSuffixBranch httpAction uriPath (clusterNeedType clusterVersion)
      (if httpAction = "POST" then .updateDocument else .noAction)
      (splitOnChar '/' uriPath)
  else if goHasSuffix ("/_search".data) uriPath then
    parseTypeSuffixBranch httpAction uriPath (clusterNeedType clusterVersion)
      (if httpAction = "GET" then .search
       else if httpAction = "POST" then .searchLimit else .noAction)
      (splitOnChar '/' uriPath)
  else if uriPath = "/_cluster/health".data then
    parseSimpleBranch httpAction uriPath
      (if httpAction = "GET" then .clusterHealth else .noAction)
  else if uriPath = "/_cluster/settings".data then
    parseSimpleBranch httpAction uriPath
      (if httpAction = "GET" then .clusterSettings else .noAction)
  else if goHasSuffix uriPath ("/_mapping".data) then
    parseTypeSuffixBranch httpAction uriPath (clusterNeedType clusterVersion)
      (if httpAction = "GET" then .getIndexMapping
       else if httpAction = "PUT" then .updateIndexMapping else .noAction)
      (splitOnChar '/' uriPath)
  else if goHasSuffix uriPath ("/_settings".data) then
    parseIndexOnlyBranch httpAction uriPath
      (if httpAction = "GET" then .getIndexSettings
       else if httpAction = "PUT" then .updateIndexSettings else .noAction)
      (splitOnChar '/' uriPath)
  else if goHasSuffix uriPath ("/_bulk".data) then
    parseSimpleBranch httpAction uriPath .bulk
  else if (splitOnChar '/' uriPath).length = 2 then
    parseIndexOnlyBranch httpAction uriPath
      (if httpAction = "GET" then .getIndex
       else if httpAction = "PUT" then .createIndex
       else if httpAction = "DELETE" then .deleteIndex else .noAction)
      (splitOnChar '/' uriPath)
  else if 3 ≤ (splitOnChar '/' uriPath).length then
    parseDocIdBranch httpAction uriPath (clusterNeedType clusterVersion)
      (if httpAction = "GET" then .document
       else if httpAction = "PUT" then .upsertDocument
       else if httpAction = "DELETE" then .deleteDocument else .noAction)
      (splitOnChar '/' uriPath)
  else
    none

theorem goHasSuffix_eq_false_iff (s suffix : List Char) :
    goHasSuffix s suffix = false ↔ ¬ suffix <:+ s := by
  rw [← goHasSuffix_eq_true_iff]
  simp

theorem not_suffix_of_length_lt (a b : List Char) (h : b.length < a.length) :
    ¬ (a <:+ b) := fun hs => absurd hs.length_le (by omega)

theorem parseDocSuffixBranch_requestAction (httpAction : String) (uriPath : List Char)
    (needType : Bool) (ra : RequestAction) (segments : List (List Char))
    (r : UriPathParserResult)
    (h : parseDocSuffixBranch httpAction uriPath needType ra segments = some r) :
    r.requestAction = ra := by
  simp only [parseDocSuffixBranch, Option.bind_eq_some] at h
  obtain ⟨seg1, h1, h⟩ := h
  split at h
  · simp only [Option.bind_eq_some, Option.some.injEq] at h
    obtain ⟨seg2, h2, seg3, h3, h⟩ := h
    subst h
    rfl
  · split at h
    · simp only [Option.bind_eq_some, Option.some.injEq] at h
      obtain ⟨seg2, h2, h⟩ := h
      subst h
      rfl
    · simp only [Option.some.injEq] at h
      subst h
      rfl

theorem parseTypeSuffixBranch_requestAction (httpAction : String) (uriPath : List Char)
    (needType : Bool) (ra : RequestAction) (segments : List (List Char))
    (r : UriPathParserResult)
    (h : parseTypeSuffixBranch httpAction uriPath needType ra segments = some r) :
    r.requestAction = ra := by
  simp only [parseTypeSuffixBranch, Option.bind_eq_some] at h
  obtain ⟨seg1, h1, h⟩ := h
  split at h
  · simp only [Option.bind_eq_some, Option.some.injEq] at h
    obtain ⟨seg2, h2, h⟩ := h
    subst h
    rfl
  · simp only [Option.some.injEq] at h
    subst h
    rfl

theorem parseDocIdBranch_requestAction (httpAction : String) (uriPath : List Char)
    (needType : Bool) (ra : RequestAction) (segments : List (List Char))
    (r : UriPathParserResult)
    (h : parseDocIdBranch httpAction uriPath needType ra segments = some r) :
    r.requestAction = ra := by
  simp only [parseDocIdBranch, Option.bind_eq_some] at h
  obtain ⟨seg1, h1, h⟩ := h
  split at h
  · simp only [Option.bind_eq_some, Option.some.injEq] at h
    obtain ⟨seg2, h2, seg3, h3, h⟩ := h
    subst h
    rfl
  · split at h
    · simp only [Option.bind_eq_some, Option.some.injEq] at h
      obtain ⟨seg2, h2, h⟩ := h
      subst h
      rfl
    · simp only [Option.some.injEq] at h
      subst h
      rfl


theorem parseSimpleBranch_requestAction (httpAction : String) (uriPath : List Char)
    (ra : RequestAction) (r : UriPathParserResult)
    (h : parseSimpleBranch httpAction uriPath ra = some r) :
    r.requestAction = ra := by
  simp only [parseSimpleBranch, Option.some.injEq] at h
  subst h
  rfl

theorem parseIndexOnlyBranch_requestAction (httpAction : String) (uriPath : List Char)
    (ra : RequestAction) (segments : List (List Char)) (r : UriPathParserResult)
    (h : parseIndexOnlyBranch httpAction uriPath ra segments = some r) :
    r.requestAction = ra := by
  simp only [parseIndexOnlyBranch, Option.bind_eq_some, Option.some.injEq] at h
  obtain ⟨seg1, h1, h⟩ := h
  subst h
  rfl


/-- Structural source of the create/update classifications: a parse result
is classified `createDocument` (resp. `updateDocument`) only when the whole
`uriPath` is a suffix of the literal `"/_create"` (resp. `"/_update"`),
because the guards are written `strings.HasSuffix("/_create", uriPath)`. -/
theorem parseUriPath_action_source (httpAction : String) (uriPath : List Char)
    (clusterVersion : String) (r : UriPathParserResult)
    (h : parseUriPath httpAction uriPath clusterVersion = some r) :
    (r.requestAction = .createDocument → uriPath <:+ "/_create".data)
    ∧ (r.requestAction = .updateDocument → uriPath <:+ "/_update".data) := by
  unfold parseUriPath at h
  by_cases h1 : uriPath = "/".data ∧ httpAction = "GET"
  · rw [if_pos h1] at h
    have hra := parseSimpleBranch_requestAction _ _ _ _ h
    rw [hra]
    exact ⟨fun hx => by simp at hx, fun hx => by simp at hx⟩
  rw [if_neg h1] at h
  by_cases h2 : goHasSuffix ("/_create".data) uriPath = true
  · rw [if_pos h2] at h
    have hra := parseDocSuffixBranch_requestAction _ _ _ _ _ _ h
    refine ⟨fun _ => (goHasSuffix_eq_true_iff _ _).1 h2, fun hupd => ?_⟩
    rw [hra] at hupd
    split at hupd <;> simp at hupd
  rw [if_neg h2] at h
  by_cases h3 : goHasSuffix ("/_update".data) uriPath = true
  · rw [if_pos h3] at h
    have hra := parseDocSuffixBranch_requestAction _ _ _ _ _ _ h
    refine ⟨fun hcr => ?_, fun _ => (goHasSuffix_eq_true_iff _ _).1 h3⟩
    rw [hra] at hcr
    split at hcr <;> simp at hcr
  rw [if_neg h3] at h
  by_cases h4 : goHasSuffix ("/_search".data) uriPath = true
  · rw [if_pos h4] at h
    have hra := parseTypeSuffixBranch_requestAction _ _ _ _ _ _ h
    rw [hra]
    constructor <;> intro hx <;> (split at hx <;> try split at hx) <;> simp at hx
  rw [if_neg h4] at h
  by_cases h5 : uriPath = "/_cluster/health".data
  · rw [if_pos h5] at h
    have hra := parseSimpleBranch_requestAction _ _ _ _ h
    rw [hra]
    constructor <;> intro hx <;> split at hx <;> simp at hx
  rw [if_neg h5] at h
  by_cases h6 : uriPath = "/_cluster/settings".data
  · rw [if_pos h6] at h
    have hra := parseSimpleBranch_requestAction _ _ _ _ h
    rw [hra]
    constructor <;> intro hx <;> split at hx <;> simp at hx
  rw [if_neg h6] at h
  by_cases h7 : goHasSuffix uriPath ("/_mapping".data) = true
  · rw [if_pos h7] at h
    have hra := parseTypeSuffixBranch_requestAction _ _ _ _ _ _ h
    rw [hra]
    constructor <;> intro hx <;> (split at hx <;> try split at hx) <;> simp at hx
  rw [if_neg h7] at h
  by_cases h8 : goHasSuffix uriPath ("/_settings".data) = true
  · rw [if_pos h8] at h
    have hra := parseIndexOnlyBranch_requestAction _ _ _ _ _ h
    rw [hra]
    constructor <;> intro hx <;> (split at hx <;> try split at hx) <;> simp at hx
  rw [if_neg h8] at h
  by_cases h9 : goHasSuffix uriPath ("/_bulk".data) = true
  · rw [if_pos h9] at h
    have hra := parseSimpleBranch_requestAction _ _ _ _ h
    rw [hra]
    exact ⟨fun hx => by simp at hx, fun hx => by simp at hx⟩
  rw [if_neg h9] at h
  by_cases h10 : (splitOnChar '/' uriPath).length = 2
  · rw [if_pos h10] at h
    have hra := parseIndexOnlyBranch_requestAction _ _ _ _ _ h
    rw [hra]
    constructor <;> intro hx <;>
      (split at hx <;> try split at hx <;> try split at hx) <;> simp at hx
  rw [if_neg h10] at h
  by_cases h11 : 3 ≤ (splitOnChar '/' uriPath).length
  · rw [if_pos h11] at h
    have hra := parseDocIdBranch_requestAction _ _ _ _ _ _ h
    rw [hra]
    constructor <;> intro hx <;>
      (split at hx <;> try split at hx <;> try split at hx) <;> simp at hx
  rw [if_neg h11] at h
  simp at h

theorem mkPath4_not_suffix_of_short (idx ty docId b : List Char) (hb : b.length < 11) :
    ¬ ('/' :: idx ++ '/' :: ty ++ '/' :: docId ++ "/_create".data <:+ b) := by
  apply not_suffix_of_length_lt
  have h8 : ("/_create".data).length = 8 := rfl
  simp only [List.length_cons, List.length_append, h8]
  omega

theorem mkPath3_not_suffix_of_short (idx docId b : List Char) (hb : b.length < 10) :
    ¬ ('/' :: idx ++ '/' :: docId ++ "/_update".data <:+ b) := by
  apply not_suffix_of_length_lt
  have h8 : ("/_update".data).length = 8 := rfl
  simp only [List.length_cons, List.length_append, h8]
  omega

/-- **C1.**  For every URI path of the form `/{index}/{type}/{id}/_create`
or `/{index}/{id}/_update` with a non-empty first segment, the gateway URI
classifier's suffix test — written with the arguments reversed, as
`strings.HasSuffix("/_create", uriPath)` — evaluates to `false`, so no
such path is ever classified as a create-document or update-document
action; only a `uriPath` that is itself a suffix of the literal
`"/_create"` (resp. `"/_update"`) enters those branches. -/
theorem parseUriPath_reversed_suffix_never_classifies :
    (∀ idx ty docId : List Char, idx ≠ [] →
        goHasSuffix ("/_create".data)
          ('/' :: idx ++ '/' :: ty ++ '/' :: docId ++ "/_create".data) = false
      ∧ goHasSuffix ("/_update".data)
          ('/' :: idx ++ '/' :: docId ++ "/_update".data) = false)
    ∧ (∀ (httpAction clusterVersion : String) (idx ty docId : List Char)
        (r : UriPathParserResult), idx ≠ [] →
        parseUriPath httpAction
            ('/' :: idx ++ '/' :: ty ++ '/' :: docId ++ "/_create".data) clusterVersion
          = some r →
        r.requestAction ≠ .createDocument ∧ r.requestAction ≠ .updateDocument)
    ∧ (∀ (httpAction clusterVersion : String) (idx docId : List Char)
        (r : UriPathParserResult), idx ≠ [] →
        parseUriPath httpAction
            ('/' :: idx ++ '/' :: docId ++ "/_update".data) clusterVersion
          = some r →
        r.requestAction ≠ .createDocument ∧ r.requestAction ≠ .updateDocument)
    ∧ (∀ (httpAction clusterVersion : String) (uriPath : List Char)
        (r : UriPathParserResult),
        parseUriPath httpAction uriPath clusterVersion = some r →
        (r.requestAction = .createDocument → uriPath <:+ "/_create".data)
        ∧ (r.requestAction = .updateDocument → uriPath <:+ "/_update".data)) := by
  refine ⟨?_, ?_, ?_, ?_⟩
  · intro idx ty docId _
    constructor
    · rw [goHasSuffix_eq_false_iff]
      exact mkPath4_not_suffix_of_short idx ty docId _ (by decide)
    · rw [goHasSuffix_eq_false_iff]
      exact mkPath3_not_suffix_of_short idx docId _ (by decide)
  · intro httpAction clusterVersion idx ty docId r _ hp
    obtain ⟨hc, hu⟩ := parseUriPath_action_source httpAction _ clusterVersion r hp
    exact ⟨fun hx => mkPath4_not_suffix_of_short idx ty docId _ (by decide) (hc hx),
           fun hx => mkPath4_not_suffix_of_short idx ty docId _ (by decide) (hu hx)⟩
  · intro httpAction clusterVersion idx docId r _ hp
    obtain ⟨hc, hu⟩ := parseUriPath_action_source httpAction _ clusterVersion r hp
    exact ⟨fun hx => mkPath3_not_suffix_of_short idx docId _ (by decide) (hc hx),
           fun hx => mkPath3_not_suffix_of_short idx docId _ (by decide) (hu hx)⟩
  · intro httpAction clusterVersion uriPath r hp
    exact parseUriPath_action_source httpAction uriPath clusterVersion r hp

/-- Witness for C1: on the concrete path `/books/doc/1/_create` the
reversed suffix test is `false` and a `POST` is not classified as a
create-document action, while the literal path `/_create` itself does
enter the branch. -/
theorem parseUriPath_reversed_suffix_never_classifies_witness :
    goHasSuffix ("/_create".data)
        ('/' :: "books".data ++ '/' :: "doc".data ++ '/' :: "1".data ++ "/_create".data) = false
    ∧ UriPathParserResult.requestAction
        { httpAction := "POST",
          uri := '/' :: "books".data ++ '/' :: "doc".data ++ '/' :: "1".data ++ "/_create".data,
          requestAction := .noAction, index := "books".data, indexType := [], documentId := [] }
        ≠ .createDocument
    ∧ "/_create".data <:+ "/_create".data := by
  refine ⟨?_, ?_, ?_⟩
  · exact (parseUriPath_reversed_suffix_never_classifies.1
      "books".data "doc".data "1".data (by decide)).1
  · exact (parseUriPath_reversed_suffix_never_classifies.2.1 "POST" "6.8.2"
      "books".data "doc".data "1".data
      { httpAction := "POST",
        uri := '/' :: "books".data ++ '/' :: "doc".data ++ '/' :: "1".data ++ "/_create".data,
        requestAction := .noAction, index := "books".data, indexType := [], documentId := [] }
      (by decide) (by decide)).1
  · exact (parseUriPath_reversed_suffix_never_classifies.2.2.2 "POST" "6.8.2"
      "/_create".data
      { httpAction := "POST", uri := "/_create".data,
        requestAction := .createDocument, index := "_create".data,
        indexType := [], documentId := [] }
      (by decide)).1 rfl

/-! ## Gateway: response rewrite (`ESGateway.onHandler`, lines 304-321)
and request-mapping rewrite (`ESGateway.modifyMappings`, lines 336-391) -/

/-- Modelled from the spec: `utils.GetValueFromMapByPath` (the `utils`
package is not under `src/`) — walk the already-split dot path through
nested JSON objects; the second Go return value `ok` is `Option`-ness. -/
def getValueFromMapByPath : JsonValue → List String → Option JsonValue
  | v, [] => some v
  | .obj fields, k :: ks => (lookupField k fields).bind fun v => getValueFromMapByPath v ks
  | _, _ :: _ => none

/-- Modelled from the spec: `utils.SetValueFromMapByPath` (missing from
`src/`) — set the value at the dot path, creating intermediate objects
for missing keys; a non-object intermediate is left unchanged. -/
def setValueFromMapByPath : JsonValue → List String → JsonValue → JsonValue
  | _, [], nv => nv
  | .obj fields, k :: ks, nv =>
    match lookupField k fields with
    | some child => .obj (setField fields k (setValueFromMapByPath child ks nv))
    | none => .obj (fields ++ [(k, setValueFromMapByPath (.obj []) ks nv)])
  | v, _ :: _, _ => v

/-- The cross-version total-hits rewrite of `ESGateway.onHandler`
(gateway.go lines 304-321): when the master is not the source cluster and
the proxied status is 200, move `hits.total` between the integer and the
`{value, relation}` shapes, writing the result under the key path
`hit.total`.  `masterIsSource` is `gateway.MasterES == gateway.SourceES`;
`masterGte7`/`sourceGte7` are `es.ClusterVersionGte7` of the two. -/
def onHandlerRewriteTotal (masterIsSource masterGte7 sourceGte7 : Bool)
    (statusCode : Nat) (bodyMap : JsonValue) : JsonValue :=
  if masterIsSource = false ∧ statusCode = 200 then
    let b1 :=
      if masterGte7 = true ∧ sourceGte7 = false then
        setValueFromMapByPath bodyMap ["hit", "total"]
          ((getValueFromMapByPath bodyMap ["hits", "total", "value"]).getD .null)
      else bodyMap
    if masterGte7 = false ∧ sourceGte7 = true then
      setValueFromMapByPath b1 ["hit", "total"]
        (.obj [("value", (getValueFromMapByPath b1 ["hits", "total"]).getD .null),
               ("relation", .str "eq")])
    else b1
  else bodyMap

/-- `ESGateway.modifyMappings` (gateway.go lines 336-391) as a function of
the parsed request body.  `Except.error` is the Go error return; `none`
models the panic of the unchecked assertion
`mappings[typeName].(map[string]interface{})`.  Go's `for key := range
mappings` visits keys in unspecified order; the model takes the first
non-`"properties"` key in field order, which agrees with Go whenever at
most one such key exists. -/
def modifyMappings (masterGte7 slaveGte7 : Bool) (body : JsonValue) :
    Option (Except String JsonValue) :=
  if masterGte7 = slaveGte7 then some (.ok body)
  else
    match body with
    | .obj data =>
      match lookupField "mappings" data with
      | some (.obj mappings) =>
        let typeName := ((mapKeys mappings).find? (fun key => key ≠ "properties")).getD ""
        if typeName ≠ "" then
          match lookupField typeName mappings with
          | some (.obj typeObj) =>
            match lookupField "properties" typeObj with
            | some properties =>
              some (.ok (.obj (setField data "mappings"
                (.obj (removeField (setField mappings "properties" properties) typeName)))))
            | none => some (.error "invalid properties format")
          | some _ => none
          | none => none
        else
          match lookupField "properties" mappings with
          | some properties =>
            some (.ok (.obj (setField data "mappings"
              (.obj (removeField
                (setField mappings "doc" (.obj [("properties", properties)]))
                "properties")))))
          | none => some (.error "invalid properties format")
      | some _ => some (.error "invalid mappings format")
      | none => some (.error "invalid mappings format")
    | _ => some (.error "json unmarshal error")

theorem lookupField_append_single_ne (k k2 : String) (m : List (String × α)) (v : α)
    (hne : k ≠ k2) : lookupField k (m ++ [(k2, v)]) = lookupField k m := by
  cases hs : (lookupField k m).isSome
  · rw [lookupField_append_not_mem k m _ hs]
    have hnone : lookupField k m = none := by
      cases hx : lookupField k m
      · rfl
      · rw [hx] at hs; simp at hs
    rw [hnone]
    have h2 : k2 ≠ k := fun h => hne h.symm
    simp [lookupField, h2]
  · exact lookupField_append_of_isSome k m _ hs

theorem setValueFromMapByPath_fresh_hit (fields : List (String × JsonValue)) (x : JsonValue)
    (hhit : lookupField "hit" fields = none) :
    setValueFromMapByPath (.obj fields) ["hit", "total"] x
      = .obj (fields ++ [("hit", .obj [("total", x)])])
    ∧ getValueFromMapByPath (.obj (fields ++ [("hit", .obj [("total", x)])])) ["hit", "total"]
      = some x
    ∧ ∀ k : String, k ≠ "hit" →
        lookupField k (fields ++ [("hit", .obj [("total", x)])]) = lookupField k fields := by
  refine ⟨?_, ?_, ?_⟩
  · simp [setValueFromMapByPath, hhit, lookupField]
  · have hl : lookupField "hit" (fields ++ [("hit", JsonValue.obj [("total", x)])])
        = some (JsonValue.obj [("total", x)]) := by
      rw [lookupField_append_not_mem "hit" fields _ (by rw [hhit]; rfl)]
      simp [lookupField]
    simp [getValueFromMapByPath, hl, lookupField]
  · intro k hk
    exact lookupField_append_single_ne k "hit" fields _ hk

/-- **C2.**  When the master and the source cluster are in different
version families (so the proxied master is not the source) and the master
response has HTTP status 200, the gateway rewrites the total-hits field
between the integer shape and the `{value, relation}` shape under the
rewritten total key — which the code spells `hit.total` — preserving
every other top-level field of the payload: a v7-family master's
`hits.total.value` is answered to the v6-family client as the bare
integer, and a v6-family master's integer `hits.total` is answered to the
v7-family client wrapped as `{value, relation: "eq"}`. -/
theorem onHandler_total_rewrite_cross_family :
    (∀ (fields : List (String × JsonValue)) (v : JsonValue),
      getValueFromMapByPath (.obj fields) ["hits", "total", "value"] = some v →
      lookupField "hit" fields = none →
      onHandlerRewriteTotal false true false 200 (.obj fields)
        = .obj (fields ++ [("hit", .obj [("total", v)])])
      ∧ getValueFromMapByPath (onHandlerRewriteTotal false true false 200 (.obj fields))
          ["hit", "total"] = some v
      ∧ ∀ k : String, k ≠ "hit" →
          lookupField k
              ((onHandlerRewriteTotal false true false 200 (.obj fields)).objFields.getD [])
            = lookupField k fields)
    ∧ (∀ (fields : List (String × JsonValue)) (v : JsonValue),
      getValueFromMapByPath (.obj fields) ["hits", "total"] = some v →
      lookupField "hit" fields = none →
      onHandlerRewriteTotal false false true 200 (.obj fields)
        = .obj (fields ++
            [("hit", .obj [("total", .obj [("value", v), ("relation", .str "eq")])])])
      ∧ getValueFromMapByPath (onHandlerRewriteTotal false false true 200 (.obj fields))
          ["hit", "total"] = some (.obj [("value", v), ("relation", .str "eq")])
      ∧ ∀ k : String, k ≠ "hit" →
          lookupField k
              ((onHandlerRewriteTotal false false true 200 (.obj fields)).objFields.getD [])
            = lookupField k fields) := by
  constructor
  · intro fields v hget hhit
    have hset := setValueFromMapByPath_fresh_hit fields v hhit
    have heq : onHandlerRewriteTotal false true false 200 (.obj fields)
        = setValueFromMapByPath (.obj fields) ["hit", "total"] v := by
      simp [onHandlerRewriteTotal, hget]
    refine ⟨heq.trans hset.1, ?_, ?_⟩
    · rw [heq, hset.1]
      exact hset.2.1
    · intro k hk
      rw [heq, hset.1]
      simp only [JsonValue.objFields, Option.getD_some]
      exact hset.2.2 k hk
  · intro fields v hget hhit
    have hset := setValueFromMapByPath_fresh_hit fields
      (.obj [("value", v), ("relation", .str "eq")]) hhit
    have heq : onHandlerRewriteTotal false false true 200 (.obj fields)
        = setValueFromMapByPath (.obj fields) ["hit", "total"]
            (.obj [("value", v), ("relation", .str "eq")]) := by
      simp [onHandlerRewriteTotal, hget]
    refine ⟨heq.trans hset.1, ?_, ?_⟩
    · rw [heq, hset.1]
      exact hset.2.1
    · intro k hk
      rw [heq, hset.1]
      simp only [JsonValue.objFields, Option.getD_some]
      exact hset.2.2 k hk

/-- Witness for C2, both directions: the scenario-6 payload
`{took: 3, hits: {total: {value: 42, relation: "eq"}, max_score: null}}`
from a v7 master is answered to the v6 client with `hit.total = 42`, and
`{hits: {total: 7}, took: 2}` from a v6 master is answered to the v7
client with `hit.total = {value: 7, relation: "eq"}`, the rest of each
payload intact. -/
theorem onHandler_total_rewrite_cross_family_witness :
    onHandlerRewriteTotal false true false 200
        (.obj [("took", .num 3),
               ("hits", .obj [("total", .obj [("value", .num 42), ("relation", .str "eq")]),
                              ("max_score", .null)])])
      = .obj [("took", .num 3),
              ("hits", .obj [("total", .obj [("value", .num 42), ("relation", .str "eq")]),
                             ("max_score", .null)]),
              ("hit", .obj [("total", .num 42)])]
    ∧ getValueFromMapByPath
        (onHandlerRewriteTotal false true false 200
          (.obj [("took", .num 3),
                 ("hits", .obj [("total", .obj [("value", .num 42), ("relation", .str "eq")]),
                                ("max_score", .null)])]))
        ["hit", "total"] = some (.num 42)
    ∧ lookupField "took"
        ((onHandlerRewriteTotal false true false 200
            (.obj [("took", .num 3),
                   ("hits", .obj [("total", .obj [("value", .num 42), ("relation", .str "eq")]),
                                  ("max_score", .null)])])).objFields.getD [])
        = some (.num 3)
    ∧ onHandlerRewriteTotal false false true 200
        (.obj [("hits", .obj [("total", .num 7)]), ("took", .num 2)])
      = .obj [("hits", .obj [("total", .num 7)]), ("took", .num 2),
              ("hit", .obj [("total", .obj [("value", .num 7), ("relation", .str "eq")])])]
    ∧ getValueFromMapByPath
        (onHandlerRewriteTotal false false true 200
          (.obj [("hits", .obj [("total", .num 7)]), ("took", .num 2)]))
        ["hit", "total"] = some (.obj [("value", .num 7), ("relation", .str "eq")])
    ∧ lookupField "took"
        ((onHandlerRewriteTotal false false true 200
            (.obj [("hits", .obj [("total", .num 7)]), ("took", .num 2)])).objFields.getD [])
        = some (.num 2) := by
  have hA := onHandler_total_rewrite_cross_family.1
    [("took", .num 3),
     ("hits", .obj [("total", .obj [("value", .num 42), ("relation", .str "eq")]),
                    ("max_score", .null)])]
    (.num 42) rfl rfl
  have hB := onHandler_total_rewrite_cross_family.2
    [("hits", .obj [("total", .num 7)]), ("took", .num 2)]
    (.num 7) rfl rfl
  exact ⟨hA.1.trans (by rfl), hA.2.1, (hA.2.2 "took" (by decide)).trans rfl,
         hB.1.trans (by rfl), hB.2.1, (hB.2.2 "took" (by decide)).trans rfl⟩
/-- **C3 counterexample.**  A typeless request body
`{mappings: {properties: {title: {type: text}}}}` is rewritten by
`modifyMappings` to a mapping keyed `"doc"`, not the canonical `"_doc"`
the claim requires: the result has no `"_doc"` key. -/
theorem modifyMappings_wraps_with_doc_not_underscore_doc :
    modifyMappings true false
        (.obj [("mappings",
                .obj [("properties", .obj [("title", .obj [("type", .str "text")])])])])
      = some (.ok (.obj [("mappings",
          .obj [("doc",
                 .obj [("properties", .obj [("title", .obj [("type", .str "text")])])])])]))
    ∧ lookupField "_doc"
        [("doc", JsonValue.obj [("properties",
            JsonValue.obj [("title", JsonValue.obj [("type", JsonValue.str "text")])])])]
        = none := ⟨rfl, rfl⟩

/-- **C3 (amended).**  For every request body whose mappings have the
typeless shape `{properties: P}` (no key other than `"properties"`), the
cross-family mapping rewrite produces the typed shape keyed by the name
`"doc"` (not `"_doc"`): `{"doc": {properties: P}}`, leaving the other
top-level fields of the body unchanged. -/
theorem modifyMappings_typeless_to_typed (masterGte7 slaveGte7 : Bool)
    (data : List (String × JsonValue)) (properties : JsonValue)
    (hfam : masterGte7 ≠ slaveGte7)
    (hmap : lookupField "mappings" data = some (.obj [("properties", properties)])) :
    modifyMappings masterGte7 slaveGte7 (.obj data)
      = some (.ok (.obj (setField data "mappings"
          (.obj [("doc", .obj [("properties", properties)])])))) := by
  simp [modifyMappings, if_neg hfam, hmap, mapKeys, setField, removeField, lookupField]

/-- Witness for the amended C3: the typeless body with one extra
top-level field is rewritten to the `"doc"`-keyed typed shape. -/
theorem modifyMappings_typeless_to_typed_witness :
    modifyMappings false true
        (.obj [("settings", .num 1),
               ("mappings", .obj [("properties", .obj [("f", .str "keyword")])])])
      = some (.ok (.obj [("settings", .num 1),
          ("mappings", .obj [("doc", .obj [("properties", .obj [("f", .str "keyword")])])])])) := by
  have h := modifyMappings_typeless_to_typed false true
    [("settings", .num 1), ("mappings", .obj [("properties", .obj [("f", .str "keyword")])])]
    (.obj [("f", .str "keyword")]) (by decide) rfl
  exact h.trans (by rfl)

/-! ## Service: the bulk orchestrator builder (`service` package,
`BulkMigrator` and its `WithXXX` configuration steps) -/

/-- `config.IndexPair`. -/
structure IndexPair where
  sourceIndex : String
  targetIndex : String
deriving Repr, DecidableEq

/-- Modelled from the spec: the `defaultXXX` constants of the service
package are not under `src/`; §6 gives parallelism 8, scroll_size 1000,
scroll_time 5, slice_size 1, buffer_count 4, write_parallel 4,
write_size 1000, compare_parallel 4. -/
def defaultParallelism : Nat := 8

/-- Modelled from the spec (§6): docs per scroll page. -/
def defaultScrollSize : Nat := 1000

/-- Modelled from the spec (§6): scroll TTL in minutes. -/
def defaultScrollTime : Nat := 5

/-- Modelled from the spec (§6): slices per scroll. -/
def defaultSliceSize : Nat := 1

/-- Modelled from the spec (§6): bounded queue capacity. -/
def defaultBufferCount : Nat := 4

/-- Modelled from the spec (§6): bulk writer workers. -/
def defaultWriteParallel : Nat := 4

/-- Modelled from the spec (§6): docs per bulk request. -/
def defaultWriteSize : Nat := 1000

/-- Modelled from the spec (§6): parallel diff workers per pair. -/
def defaultCompareParallel : Nat := 4

/-- The configuration fields of `service.BulkMigrator`.  The `ctx`,
`SourceES` and `TargetES` handles are opaque and copied verbatim by every
builder, so they are omitted.  Defaults are the Go zero values, used when
a composite literal `&BulkMigrator{...}` omits a field.  `error` models
`Error error` (`none` = `nil`). -/
structure BulkMigrator where
  parallelism : Nat := 0
  indexPairMap : List (String × IndexPair) := []
  error : Option String := none
  scrollSize : Nat := 0
  scrollTime : Nat := 0
  sliceSize : Nat := 0
  bufferCount : Nat := 0
  writeParallel : Nat := 0
  writeSize : Nat := 0
  ids : List String := []
  compareParallel : Nat := 0
deriving Repr, DecidableEq

/-- `BulkMigrator.getIndexPairKey`: `fmt.Sprintf("%s:%s", source, target)`. -/
def getIndexPairKey (indexPair : IndexPair) : String :=
  indexPair.sourceIndex ++ ":" ++ indexPair.targetIndex

/-- `lo.Assign(m1, m2)`: merge into a fresh map, later entries overriding. -/
def loAssign (m1 m2 : List (String × IndexPair)) : List (String × IndexPair) :=
  m2.foldl (fun acc kv => setField acc kv.1 kv.2) m1

/-- `BulkMigrator.WithIndexPairs` (gateway.go service part, lines
530-564): deduplicate the arguments against each other (first wins), then
`lo.Assign` them over the existing map (the new entry overriding). -/
def WithIndexPairs (m : BulkMigrator) (indexPairs : List IndexPair) : BulkMigrator :=
  if m.error.isSome then m
  else
    let newBulkMigrator : BulkMigrator :=
      { parallelism := m.parallelism, indexPairMap := m.indexPairMap, error := m.error,
        scrollSize := m.scrollSize, scrollTime := m.scrollTime, sliceSize := m.sliceSize,
        bufferCount := m.bufferCount, writeParallel := m.writeParallel,
        writeSize := m.writeSize, ids := m.ids, compareParallel := m.compareParallel }
    let newIndexPairsMap : List (String × IndexPair) :=
      indexPairs.foldl (fun acc indexPair =>
        let indexPairKey := getIndexPairKey indexPair
        if (lookupField indexPairKey acc).isSome then acc
        else acc ++ [(indexPairKey, indexPair)]) []
    if newIndexPairsMap.length > 0 then
      { newBulkMigrator with indexPairMap := loAssign newBulkMigrator.indexPairMap newIndexPairsMap }
    else newBulkMigrator

/-- `BulkMigrator.WithScrollSize` (lines 566-591). -/
def WithScrollSize (m : BulkMigrator) (scrollSize : Nat) : BulkMigrator :=
  if m.error.isSome then m
  else
    let scrollSize := if scrollSize = 0 then defaultScrollSize else scrollSize
    { parallelism := m.parallelism, indexPairMap := m.indexPairMap, error := m.error,
      scrollSize := scrollSize, scrollTime := m.scrollTime, sliceSize := m.sliceSize,
      bufferCount := m.bufferCount, writeParallel := m.writeParallel,
      writeSize := m.writeSize, ids := m.ids, compareParallel := m.compareParallel }

/-- `BulkMigrator.WithScrollTime` (lines 593-617). -/
def WithScrollTime (m : BulkMigrator) (scrollTime : Nat) : BulkMigrator :=
  if m.error.isSome then m
  else
    let scrollTime := if scrollTime = 0 then defaultScrollTime else scrollTime
    { parallelism := m.parallelism, indexPairMap := m.indexPairMap, error := m.error,
      scrollSize := m.scrollSize, scrollTime := scrollTime, sliceSize := m.sliceSize,
      bufferCount := m.bufferCount, writeParallel := m.writeParallel,
      writeSize := m.writeSize, ids := m.ids, compareParallel := m.compareParallel }

/-- `BulkMigrator.WithSliceSize` (lines 619-643). -/
def WithSliceSize (m : BulkMigrator) (sliceSize : Nat) : BulkMigrator :=
  if m.error.isSome then m
  else
    let sliceSize := if sliceSize = 0 then defaultSliceSize else sliceSize
    { parallelism := m.parallelism, indexPairMap := m.indexPairMap, error := m.error,
      scrollSize := m.scrollSize, scrollTime := m.scrollTime, sliceSize := sliceSize,
      bufferCount := m.bufferCount, writeParallel := m.writeParallel,
      writeSize := m.writeSize, ids := m.ids, compareParallel := m.compareParallel }

/-- `BulkMigrator.WithBufferCount` (lines 645-669). -/
def WithBufferCount (m : BulkMigrator) (bufferCount : Nat) : BulkMigrator :=
  if m.error.isSome then m
  else
    let bufferCount := if bufferCount = 0 then defaultBufferCount else bufferCount
    { parallelism := m.parallelism, indexPairMap := m.indexPairMap, error := m.error,
      scrollSize := m.scrollSize, scrollTime := m.scrollTime, sliceSize := m.sliceSize,
      bufferCount := bufferCount, writeParallel := m.writeParallel,
      writeSize := m.writeSize, ids := m.ids, compareParallel := m.compareParallel }

/-- `BulkMigrator.WithWriteParallel` (lines 671-695). -/
def WithWriteParallel (m : BulkMigrator) (writeParallel : Nat) : BulkMigrator :=
  if m.error.isSome then m
  else
    let writeParallel := if writeParallel = 0 then defaultWriteParallel else writeParallel
    { parallelism := m.parallelism, indexPairMap := m.indexPairMap, error := m.error,
      scrollSize := m.scrollSize, scrollTime := m.scrollTime, sliceSize := m.sliceSize,
      bufferCount := m.bufferCount, writeParallel := writeParallel,
      writeSize := m.writeSize, ids := m.ids, compareParallel := m.compareParallel }

/-- `BulkMigrator.WithWriteSize` (lines 697-722). -/
def WithWriteSize (m : BulkMigrator) (writeSize : Nat) : BulkMigrator :=
  if m.error.isSome then m
  else
    let writeSize := if writeSize = 0 then defaultWriteSize else writeSize
    { parallelism := m.parallelism, indexPairMap := m.indexPairMap, error := m.error,
      scrollSize := m.scrollSize, scrollTime := m.scrollTime, sliceSize := m.sliceSize,
      bufferCount := m.bufferCount, writeParallel := m.writeParallel,
      writeSize := writeSize, ids := m.ids, compareParallel := m.compareParallel }

/-- `BulkMigrator.WithPatternIndexes` (lines 750-794).  The composite
literal at lines 755-768 omits `WriteSize` and `CompareParallel`, which
therefore reset to the Go zero value.  `m.filterIndexes(pattern)` performs
network I/O, so its outcome is a parameter. -/
def WithPatternIndexes (m : BulkMigrator) (filterIndexesResult : Except String (List String)) :
    BulkMigrator :=
  if m.error.isSome then m
  else
    let newBulkMigrator : BulkMigrator :=
      { parallelism := m.parallelism, indexPairMap := m.indexPairMap, error := m.error,
        scrollSize := m.scrollSize, scrollTime := m.scrollTime, sliceSize := m.sliceSize,
        bufferCount := m.bufferCount, writeParallel := m.writeParallel, ids := m.ids }
    match filterIndexesResult with
    | .error e => { newBulkMigrator with error := some e }
    | .ok filterIndexes =>
      let newIndexPairsMap : List (String × IndexPair) :=
        filterIndexes.foldl (fun acc index =>
          let indexPair : IndexPair := ⟨index, index⟩
          let newIndexPairKey := getIndexPairKey indexPair
          if (lookupField newIndexPairKey newBulkMigrator.indexPairMap).isSome then acc
          else setField acc newIndexPairKey indexPair) []
      if newIndexPairsMap.length > 0 then
        { newBulkMigrator with
            indexPairMap := loAssign newBulkMigrator.indexPairMap newIndexPairsMap }
      else newBulkMigrator

/-- `BulkMigrator.WithParallelism` (lines 796-818).  The composite literal
omits `WriteSize` and `CompareParallel` (zero value). -/
def WithParallelism (m : BulkMigrator) (parallelism : Nat) : BulkMigrator :=
  if m.error.isSome then m
  else
    let parallelism := if parallelism = 0 then defaultParallelism else parallelism
    { parallelism := parallelism, indexPairMap := m.indexPairMap, error := m.error,
      scrollSize := m.scrollSize, scrollTime := m.scrollTime, sliceSize := m.sliceSize,
      bufferCount := m.bufferCount, writeParallel := m.writeParallel, ids := m.ids }

/-- `BulkMigrator.WithCompareParallelism` (lines 820-843).  The composite
literal omits `WriteSize` (zero value) and sets
`CompareParallel: compareParallel` — an identifier that is neither the
parameter `compareParallelism` nor defined anywhere in the sources (the
parameter's zero-collapse at lines 825-827 is dead); the unresolved
binding is modelled by the extra argument `compareParallel`. -/
def WithCompareParallelism (compareParallel : Nat) (m : BulkMigrator)
    (compareParallelism : Nat) : BulkMigrator :=
  if m.error.isSome then m
  else
    let _compareParallelism :=
      if compareParallelism = 0 then defaultCompareParallel else compareParallelism
    { parallelism := m.parallelism, indexPairMap := m.indexPairMap, error := m.error,
      scrollSize := m.scrollSize, scrollTime := m.scrollTime, sliceSize := m.sliceSize,
      bufferCount := m.bufferCount, writeParallel := m.writeParallel, ids := m.ids,
      compareParallel := compareParallel }

/-- `BulkMigrator.WithIds` (lines 845-865).  The composite literal omits
`CompareParallel` (zero value). -/
def WithIds (m : BulkMigrator) (ids : List String) : BulkMigrator :=
  if m.error.isSome then m
  else
    { parallelism := m.parallelism, indexPairMap := m.indexPairMap, error := m.error,
      scrollSize := m.scrollSize, scrollTime := m.scrollTime, sliceSize := m.sliceSize,
      bufferCount := m.bufferCount, writeParallel := m.writeParallel,
      writeSize := m.writeSize, ids := ids }

/-- An error-free `BulkMigrator` configuration with all fields explicit. -/
def mkCfg (p : Nat) (ipm : List (String × IndexPair)) (ss st sl bc wp ws : Nat)
    (ids : List String) (cp : Nat) : BulkMigrator :=
  { parallelism := p, indexPairMap := ipm, error := none, scrollSize := ss,
    scrollTime := st, sliceSize := sl, bufferCount := bc, writeParallel := wp,
    writeSize := ws, ids := ids, compareParallel := cp }

/-- **C4 counterexample.**  `WithIds` on an error-free configuration with
`CompareParallel = 4` returns a configuration with `CompareParallel = 0`:
a field other than the named one (and the pair map) changed. -/
theorem WithIds_resets_compareParallel :
    (WithIds (mkCfg 8 [] 1000 5 1 4 4 1000 [] 4) ["a"]).compareParallel = 0
    ∧ (mkCfg 8 [] 1000 5 1 4 4 1000 [] 4).compareParallel = 4
    ∧ (mkCfg 8 [] 1000 5 1 4 4 1000 [] 4).error = none
    ∧ (WithIds (mkCfg 8 [] 1000 5 1 4 4 1000 [] 4) ["a"]).ids = ["a"] :=
  ⟨rfl, rfl, rfl, rfl⟩

theorem WithPatternIndexes_ok_fields (m : BulkMigrator) (idxs : List String)
    (hm : m.error = none) :
    (WithPatternIndexes m (.ok idxs)).parallelism = m.parallelism
    ∧ (WithPatternIndexes m (.ok idxs)).error = none
    ∧ (WithPatternIndexes m (.ok idxs)).scrollSize = m.scrollSize
    ∧ (WithPatternIndexes m (.ok idxs)).scrollTime = m.scrollTime
    ∧ (WithPatternIndexes m (.ok idxs)).sliceSize = m.sliceSize
    ∧ (WithPatternIndexes m (.ok idxs)).bufferCount = m.bufferCount
    ∧ (WithPatternIndexes m (.ok idxs)).writeParallel = m.writeParallel
    ∧ (WithPatternIndexes m (.ok idxs)).writeSize = 0
    ∧ (WithPatternIndexes m (.ok idxs)).ids = m.ids
    ∧ (WithPatternIndexes m (.ok idxs)).compareParallel = 0 := by
  unfold WithPatternIndexes
  rw [hm]
  split
  · simp_all
  · dsimp only
    split <;> simp

/-- **C4 (amended).**  On an error-free configuration, `with_scroll_size`,
`with_slice_size`, `with_buffer_count`, `with_write_parallel` and
`with_write_size` return a new configuration in which only the named
field differs; but `with_ids` additionally resets `CompareParallel` to
zero, `with_parallelism` and `with_pattern_indexes` additionally reset
`WriteSize` and `CompareParallel` to zero, and `with_compare_parallelism`
additionally resets `WriteSize` to zero (their composite literals omit
those fields). -/
theorem builder_frame_effects (p : Nat) (ipm : List (String × IndexPair))
    (ss st sl bc wp ws : Nat) (ids : List String) (cp : Nat)
    (n cp2 : Nat) (ids2 : List String) (idxs : List String) :
    WithScrollSize (mkCfg p ipm ss st sl bc wp ws ids cp) n
      = mkCfg p ipm (if n = 0 then defaultScrollSize else n) st sl bc wp ws ids cp
    ∧ WithSliceSize (mkCfg p ipm ss st sl bc wp ws ids cp) n
      = mkCfg p ipm ss st (if n = 0 then defaultSliceSize else n) bc wp ws ids cp
    ∧ WithBufferCount (mkCfg p ipm ss st sl bc wp ws ids cp) n
      = mkCfg p ipm ss st sl (if n = 0 then defaultBufferCount else n) wp ws ids cp
    ∧ WithWriteParallel (mkCfg p ipm ss st sl bc wp ws ids cp) n
      = mkCfg p ipm ss st sl bc (if n = 0 then defaultWriteParallel else n) ws ids cp
    ∧ WithWriteSize (mkCfg p ipm ss st sl bc wp ws ids cp) n
      = mkCfg p ipm ss st sl bc wp (if n = 0 then defaultWriteSize else n) ids cp
    ∧ WithIds (mkCfg p ipm ss st sl bc wp ws ids cp) ids2
      = mkCfg p ipm ss st sl bc wp ws ids2 0
    ∧ WithCompareParallelism cp2 (mkCfg p ipm ss st sl bc wp ws ids cp) n
      = mkCfg p ipm ss st sl bc wp 0 ids cp2
    ∧ WithParallelism (mkCfg p ipm ss st sl bc wp ws ids cp) n
      = mkCfg (if n = 0 then defaultParallelism else n) ipm ss st sl bc wp 0 ids 0
    ∧ ((WithPatternIndexes (mkCfg p ipm ss st sl bc wp ws ids cp) (.ok idxs)).parallelism = p
      ∧ (WithPatternIndexes (mkCfg p ipm ss st sl bc wp ws ids cp) (.ok idxs)).error = none
      ∧ (WithPatternIndexes (mkCfg p ipm ss st sl bc wp ws ids cp) (.ok idxs)).scrollSize = ss
      ∧ (WithPatternIndexes (mkCfg p ipm ss st sl bc wp ws ids cp) (.ok idxs)).scrollTime = st
      ∧ (WithPatternIndexes (mkCfg p ipm ss st sl bc wp ws ids cp) (.ok idxs)).sliceSize = sl
      ∧ (WithPatternIndexes (mkCfg p ipm ss st sl bc wp ws ids cp) (.ok idxs)).bufferCount = bc
      ∧ (WithPatternIndexes (mkCfg p ipm ss st sl bc wp ws ids cp) (.ok idxs)).writeParallel = wp
      ∧ (WithPatternIndexes (mkCfg p ipm ss st sl bc wp ws ids cp) (.ok idxs)).writeSize = 0
      ∧ (WithPatternIndexes (mkCfg p ipm ss st sl bc wp ws ids cp) (.ok idxs)).ids = ids
      ∧ (WithPatternIndexes (mkCfg p ipm ss st sl bc wp ws ids cp) (.ok idxs)).compareParallel
          = 0) := by
  exact ⟨rfl, rfl, rfl, rfl, rfl, rfl, rfl, rfl,
    WithPatternIndexes_ok_fields (mkCfg p ipm ss st sl bc wp ws ids cp) idxs rfl⟩

/-- **C5.**  Every numeric builder step with a nonzero argument sets its
named field to the argument and with 0 sets the documented default
(scroll_size 1000, scroll_time 5, slice_size 1, buffer_count 4,
write_parallel 4, write_size 1000, parallelism 8) — except
`with_compare_parallelism`, whose result's `CompareParallel` equals the
unresolved package-level binding `compareParallel` whatever the argument
is (the Go source assigns `CompareParallel: compareParallel`, not the
parameter), so it does not equal a nonzero argument `n+1` unless the
binding happens to be it. -/
theorem builder_numeric_defaults (p : Nat) (ipm : List (String × IndexPair))
    (ss st sl bc wp ws : Nat) (ids : List String) (cp : Nat) (n cp2 : Nat) :
    (WithScrollSize (mkCfg p ipm ss st sl bc wp ws ids cp) (n + 1)).scrollSize = n + 1
    ∧ (WithScrollSize (mkCfg p ipm ss st sl bc wp ws ids cp) 0).scrollSize = 1000
    ∧ (WithScrollTime (mkCfg p ipm ss st sl bc wp ws ids cp) (n + 1)).scrollTime = n + 1
    ∧ (WithScrollTime (mkCfg p ipm ss st sl bc wp ws ids cp) 0).scrollTime = 5
    ∧ (WithSliceSize (mkCfg p ipm ss st sl bc wp ws ids cp) (n + 1)).sliceSize = n + 1
    ∧ (WithSliceSize (mkCfg p ipm ss st sl bc wp ws ids cp) 0).sliceSize = 1
    ∧ (WithBufferCount (mkCfg p ipm ss st sl bc wp ws ids cp) (n + 1)).bufferCount = n + 1
    ∧ (WithBufferCount (mkCfg p ipm ss st sl bc wp ws ids cp) 0).bufferCount = 4
    ∧ (WithWriteParallel (mkCfg p ipm ss st sl bc wp ws ids cp) (n + 1)).writeParallel = n + 1
    ∧ (WithWriteParallel (mkCfg p ipm ss st sl bc wp ws ids cp) 0).writeParallel = 4
    ∧ (WithWriteSize (mkCfg p ipm ss st sl bc wp ws ids cp) (n + 1)).writeSize = n + 1
    ∧ (WithWriteSize (mkCfg p ipm ss st sl bc wp ws ids cp) 0).writeSize = 1000
    ∧ (WithParallelism (mkCfg p ipm ss st sl bc wp ws ids cp) (n + 1)).parallelism = n + 1
    ∧ (WithParallelism (mkCfg p ipm ss st sl bc wp ws ids cp) 0).parallelism = 8
    ∧ (WithCompareParallelism cp2 (mkCfg p ipm ss st sl bc wp ws ids cp) (n + 1)).compareParallel
        = cp2
    ∧ (WithCompareParallelism cp2 (mkCfg p ipm ss st sl bc wp ws ids cp) 7).compareParallel
        = cp2 :=
  ⟨rfl, rfl, rfl, rfl, rfl, rfl, rfl, rfl, rfl, rfl, rfl, rfl, rfl, rfl, rfl, rfl⟩

theorem lookupField_mapReplace (m : List (String × α)) (k : String) (v : α)
    (h : (lookupField k m).isSome) :
    lookupField k (m.map (fun kv => if kv.1 = k then (k, v) else kv)) = some v := by
  induction m with
  | nil => simp [lookupField] at h
  | cons kv rest ih =>
    obtain ⟨k1, v1⟩ := kv
    by_cases hk : k1 = k
    · simp only [List.map_cons]
      have hhead : (if (k1, v1).1 = k then (k, v) else (k1, v1)) = (k, v) := by simp [hk]
      rw [hhead]
      simp [lookupField]
    · simp only [List.map_cons]
      have hhead : (if (k1, v1).1 = k then (k, v) else (k1, v1)) = (k1, v1) := by simp [hk]
      rw [hhead]
      simp only [lookupField, hk, if_false]
      exact ih (by simpa [lookupField, hk] using h)

theorem lookupField_mapReplace_ne (m : List (String × α)) (k k2 : String) (v : α)
    (hne : k ≠ k2) :
    lookupField k (m.map (fun kv => if kv.1 = k2 then (k2, v) else kv)) = lookupField k m := by
  induction m with
  | nil => rfl
  | cons kv rest ih =>
    obtain ⟨k1, v1⟩ := kv
    by_cases hk : k1 = k2
    · simp only [List.map_cons]
      have hhead : (if (k1, v1).1 = k2 then (k2, v) else (k1, v1)) = (k2, v) := by simp [hk]
      rw [hhead]
      have h2 : k2 ≠ k := fun he => hne he.symm
      have h1 : k1 ≠ k := by rw [hk]; exact h2
      simp only [lookupField, h2, h1, if_false]
      exact ih
    · simp only [List.map_cons]
      have hhead : (if (k1, v1).1 = k2 then (k2, v) else (k1, v1)) = (k1, v1) := by simp [hk]
      rw [hhead]
      by_cases hk1 : k1 = k
      · simp [lookupField, hk1]
      · simp only [lookupField, hk1, if_false]
        exact ih

theorem lookupField_setField_self (m : List (String × α)) (k : String) (v : α) :
    lookupField k (setField m k v) = some v := by
  unfold setField
  split
  · exact lookupField_mapReplace m k v (by assumption)
  · rename_i hs
    rw [lookupField_append_not_mem k m _ (by simpa using hs)]
    simp [lookupField]

theorem lookupField_setField_ne (m : List (String × α)) (k k2 : String) (v : α)
    (hne : k ≠ k2) : lookupField k (setField m k2 v) = lookupField k m := by
  unfold setField
  split
  · exact lookupField_mapReplace_ne m k k2 v hne
  · exact lookupField_append_single_ne k k2 m v hne
theorem mem_setField (m : List (String × α)) (k : String) (v : α) (kv2 : String × α)
    (h : kv2 ∈ setField m k v) : kv2 ∈ m ∨ kv2 = (k, v) := by
  unfold setField at h
  split at h
  · rw [List.mem_map] at h
    obtain ⟨kv3, h3, heq⟩ := h
    by_cases hk : kv3.1 = k
    · right
      rw [if_pos hk] at heq
      exact heq.symm
    · left
      rw [if_neg hk] at heq
      exact heq ▸ h3
  · rw [List.mem_append] at h
    cases h with
    | inl h => exact Or.inl h
    | inr h => exact Or.inr (by simpa using h)

theorem mapKeys_setField_isSome (m : List (String × α)) (k : String) (v : α)
    (h : (lookupField k m).isSome) :
    mapKeys (setField m k v) = mapKeys m := by
  unfold setField
  rw [if_pos h]
  unfold mapKeys
  rw [List.map_map]
  apply List.map_congr_left
  intro kv _
  by_cases hk : kv.1 = k
  · simp [hk]
  · simp [hk]

theorem mapKeys_setField_not_mem (m : List (String × α)) (k : String) (v : α)
    (h : (lookupField k m).isSome = false) :
    mapKeys (setField m k v) = mapKeys m ++ [k] := by
  unfold setField
  rw [if_neg (by simp [h])]
  simp [mapKeys]

theorem nodup_mapKeys_setField (m : List (String × α)) (k : String) (v : α)
    (h : (mapKeys m).Nodup) : (mapKeys (setField m k v)).Nodup := by
  cases hs : (lookupField k m).isSome
  · rw [mapKeys_setField_not_mem m k v hs]
    have hk : k ∉ mapKeys m := fun hmem =>
      by rw [(lookupField_isSome_iff_mem_keys k m).2 hmem] at hs; cases hs
    simp [List.nodup_append, h, hk]
  · rw [mapKeys_setField_isSome m k v hs]
    exact h

theorem nodup_mapKeys_loAssign (m1 m2 : List (String × IndexPair))
    (h : (mapKeys m1).Nodup) : (mapKeys (loAssign m1 m2)).Nodup := by
  induction m2 generalizing m1 with
  | nil => exact h
  | cons kv rest ih =>
    exact ih (setField m1 kv.1 kv.2) (nodup_mapKeys_setField m1 kv.1 kv.2 h)

theorem lookupField_loAssign_all_ne (m1 m2 : List (String × IndexPair)) (k : String)
    (h : ∀ kv ∈ m2, kv.1 ≠ k) :
    lookupField k (loAssign m1 m2) = lookupField k m1 := by
  induction m2 generalizing m1 with
  | nil => rfl
  | cons kv rest ih =>
    rw [show loAssign m1 (kv :: rest) = loAssign (setField m1 kv.1 kv.2) rest from rfl]
    rw [ih (setField m1 kv.1 kv.2) (fun kv2 hm => h kv2 (List.mem_cons_of_mem kv hm))]
    exact lookupField_setField_ne m1 k kv.1 kv.2
      (fun he => h kv (List.mem_cons_self kv rest) he.symm)

theorem pattern_foldl_inv (mmap : List (String × IndexPair)) (idxs : List String)
    (acc : List (String × IndexPair))
    (hacc : ∀ kv ∈ acc, (lookupField kv.1 mmap).isSome = false) :
    ∀ kv ∈ idxs.foldl (fun acc index =>
        if (lookupField (getIndexPairKey ⟨index, index⟩) mmap).isSome = true then acc
        else setField acc (getIndexPairKey ⟨index, index⟩) ⟨index, index⟩) acc,
      (lookupField kv.1 mmap).isSome = false := by
  induction idxs generalizing acc with
  | nil => exact hacc
  | cons i rest ih =>
    simp only [List.foldl_cons]
    apply ih
    intro kv hkv
    by_cases hc : (lookupField (getIndexPairKey ⟨i, i⟩) mmap).isSome = true
    · rw [if_pos hc] at hkv
      exact hacc kv hkv
    · rw [if_neg hc] at hkv
      rcases mem_setField _ _ _ _ hkv with hmem | heq
      · exact hacc kv hmem
      · rw [heq]
        simpa using hc

/-- **C8 counterexample.**  The identities of `("a", "b:c")` and
`("a:b", "c")` are both the string `"a:b:c"`, and a `with_index_pairs`
call whose pair's identity already exists in the map replaces the stored
entry (`lo.Assign` lets the later map win), so the existing entry does
not stay unchanged. -/
theorem WithIndexPairs_overrides_existing :
    getIndexPairKey ⟨"a", "b:c"⟩ = "a:b:c"
    ∧ getIndexPairKey ⟨"a:b", "c"⟩ = "a:b:c"
    ∧ (WithIndexPairs (mkCfg 8 [] 1000 5 1 4 4 1000 [] 4) [⟨"a", "b:c"⟩]).indexPairMap
        = [("a:b:c", ⟨"a", "b:c"⟩)]
    ∧ (WithIndexPairs (WithIndexPairs (mkCfg 8 [] 1000 5 1 4 4 1000 [] 4) [⟨"a", "b:c"⟩])
          [⟨"a:b", "c"⟩]).indexPairMap
        = [("a:b:c", ⟨"a:b", "c"⟩)] := by
  refine ⟨by decide, by decide, by decide, by decide⟩

/-- **C8 (amended).**  Pairs are keyed by the literal identity
`"source:target"` and the pair map holds at most one entry per identity
(`with_index_pairs` and `with_pattern_indexes` both preserve key
uniqueness); `with_pattern_indexes` never replaces an existing identity,
but a `with_index_pairs` call whose pair's identity already exists
replaces the stored entry with the new pair. -/
theorem indexPair_identity_keying :
    (∀ pr : IndexPair, getIndexPairKey pr = pr.sourceIndex ++ ":" ++ pr.targetIndex)
    ∧ (∀ (m : BulkMigrator) (pairs : List IndexPair), (mapKeys m.indexPairMap).Nodup →
        (mapKeys (WithIndexPairs m pairs).indexPairMap).Nodup)
    ∧ (∀ (m : BulkMigrator) (idxs : List String), (mapKeys m.indexPairMap).Nodup →
        (mapKeys (WithPatternIndexes m (.ok idxs)).indexPairMap).Nodup)
    ∧ (∀ (m : BulkMigrator) (pr : IndexPair), m.error = none →
        lookupField (getIndexPairKey pr) ((WithIndexPairs m [pr]).indexPairMap) = some pr)
    ∧ (∀ (m : BulkMigrator) (idxs : List String) (k : String), m.error = none →
        (lookupField k m.indexPairMap).isSome →
        lookupField k ((WithPatternIndexes m (.ok idxs)).indexPairMap)
          = lookupField k m.indexPairMap) := by
  refine ⟨fun pr => rfl, ?_, ?_, ?_, ?_⟩
  · intro m pairs h
    unfold WithIndexPairs
    split
    · exact h
    · dsimp only
      split
      · exact nodup_mapKeys_loAssign _ _ h
      · exact h
  · intro m idxs h
    unfold WithPatternIndexes
    split
    · exact h
    · dsimp only
      split
      · exact nodup_mapKeys_loAssign _ _ h
      · exact h
  · intro m pr hm
    unfold WithIndexPairs
    rw [if_neg (by simp [hm])]
    exact lookupField_setField_self m.indexPairMap (getIndexPairKey pr) pr
  · intro m idxs k hm hk
    unfold WithPatternIndexes
    rw [if_neg (by simp [hm])]
    dsimp only
    split
    · apply lookupField_loAssign_all_ne
      intro kv hkv hke
      have hfalse := pattern_foldl_inv m.indexPairMap idxs [] (by simp) kv hkv
      rw [hke] at hfalse
      rw [hfalse] at hk
      cases hk
    · rfl

/-- Witness for the amended C8, at concrete inputs: the identity string,
key uniqueness after adding a duplicated pair, the new entry winning, and
a pattern step leaving an existing pair untouched. -/
theorem indexPair_identity_keying_witness :
    getIndexPairKey ⟨"logs", "logs"⟩ = "logs" ++ ":" ++ "logs"
    ∧ (mapKeys (WithIndexPairs (mkCfg 8 [] 1000 5 1 4 4 1000 [] 4)
        [⟨"a", "b"⟩, ⟨"a", "b"⟩]).indexPairMap).Nodup
    ∧ (mapKeys (WithPatternIndexes (mkCfg 8 [] 1000 5 1 4 4 1000 [] 4)
        (.ok ["x", "x"])).indexPairMap).Nodup
    ∧ lookupField (getIndexPairKey ⟨"a", "b"⟩)
        ((WithIndexPairs (mkCfg 8 [("a:b", ⟨"a", "b"⟩)] 1000 5 1 4 4 1000 [] 4)
          [⟨"a", "b"⟩]).indexPairMap) = some ⟨"a", "b"⟩
    ∧ lookupField "x:x"
        ((WithPatternIndexes (mkCfg 8 [("x:x", ⟨"x", "x"⟩)] 1000 5 1 4 4 1000 [] 4)
          (.ok ["x", "y"])).indexPairMap)
        = lookupField "x:x" (mkCfg 8 [("x:x", ⟨"x", "x"⟩)] 1000 5 1 4 4 1000 [] 4).indexPairMap := by
  refine ⟨indexPair_identity_keying.1 ⟨"logs", "logs"⟩, ?_, ?_, ?_, ?_⟩
  · exact indexPair_identity_keying.2.1 (mkCfg 8 [] 1000 5 1 4 4 1000 [] 4)
      [⟨"a", "b"⟩, ⟨"a", "b"⟩] (by simp [mkCfg, mapKeys])
  · exact indexPair_identity_keying.2.2.1 (mkCfg 8 [] 1000 5 1 4 4 1000 [] 4)
      ["x", "x"] (by simp [mkCfg, mapKeys])
  · exact indexPair_identity_keying.2.2.2.1
      (mkCfg 8 [("a:b", ⟨"a", "b"⟩)] 1000 5 1 4 4 1000 [] 4) ⟨"a", "b"⟩ rfl
  · exact indexPair_identity_keying.2.2.2.2
      (mkCfg 8 [("x:x", ⟨"x", "x"⟩)] 1000 5 1 4 4 1000 [] 4) ["x", "y"] "x:x" rfl (by decide)

/-! ## ES adapter V6 (`src/unnamed/part_000`, package `es`) -/

/-- The `es.OperationXXX` constants of `Doc.Op`; `opOther` stands for any
value other than the three named ones (the `default` arm of the `switch`
in `V6.BulkBody`). -/
inductive Operation where
  | opCreate
  | opUpdate
  | opDelete
  | opOther
deriving Repr, DecidableEq

/-- `es.Doc`: the fields `V6.BulkBody` reads.  `source` is the decoded
`map[string]interface{}` of the document. -/
structure Doc where
  id : String
  type : String
  source : List (String × JsonValue)
  op : Operation
deriving Repr

/-- `V6.BulkBody` (part_000 lines 273-310): append one bulk action to the
buffer.  The result is the list of newline-terminated lines, each given as
its decoded JSON value: the action metadata line and, when the body map is
non-empty, the body line. -/
def BulkBody (index : String) (doc : Doc) : Except String (List JsonValue) :=
  let actionBody : Option (String × List (String × JsonValue)) :=
    match doc.op with
    | .opCreate => some ("index", doc.source)
    | .opUpdate => some ("update", [(doc.type, .obj doc.source)])
    | .opDelete => some ("delete", [])
    | .opOther => none
  match actionBody with
  | none => .error "unknow action"
  | some (action, body) =>
    let meta : JsonValue :=
      .obj [(action, .obj [("_index", .str index), ("_id", .str doc.id),
                           ("_type", .str doc.type)])]
    .ok (meta :: (if body.length > 0 then [JsonValue.obj body] else []))

/-- An HTTP response as the adapter sees it: status code and body text
(transport errors are out of scope of the claims below). -/
structure HttpResponse where
  statusCode : Nat
  body : String
deriving Repr, DecidableEq

/-- The error kinds of the adapter (spec section 7). -/
inductive ESError where
  | clusterError (status : Nat) (msg : String)
deriving Repr, DecidableEq

/-- Modelled from the spec: `formatError(res)` (not under `src/`) yields
the `CLUSTER_ERROR` kind carrying the status and the server message. -/
def formatError (res : HttpResponse) : ESError :=
  .clusterError res.statusCode res.body

/-- `V6.Bulk` (part_000 lines 312-326) as a function of the received
response: any status other than 200 is `formatError`. -/
def Bulk (res : HttpResponse) : Except ESError Unit :=
  if res.statusCode ≠ 200 then .error (formatError res) else .ok ()

/-- `V6.CreateIndex` (part_000 lines 328-355), response handling only. -/
def CreateIndex (res : HttpResponse) : Except ESError Unit :=
  if res.statusCode ≠ 200 then .error (formatError res) else .ok ()

/-- `V6.IndexExisted` (part_000 lines 357-376): 404 is `false`, any other
non-200 status is `formatError`, 200 is `res.StatusCode == 200`. -/
def IndexExisted (res : HttpResponse) : Except ESError Bool :=
  if res.statusCode = 404 then .ok false
  else if res.statusCode ≠ 200 then .error (formatError res)
  else .ok (res.statusCode = 200)

/-- `es.ScrollOption` (the fields `V6.NewScroll` reads). -/
structure ScrollOption where
  scrollSize : Nat
  scrollTime : Nat
  sliceId : Option Nat
  sliceSize : Option Nat
  query : List (String × JsonValue)
  sortFields : List String

/-- The scroll-query construction of `V6.NewScroll` (part_000 lines
65-82): copy `option.Query`, and when `option.SliceId` is non-nil add the
slice clause dereferencing `*option.SliceId` and `*option.SliceSize`.
`none` models the nil-pointer dereference of `option.SliceSize`. -/
def NewScrollQuery (option : ScrollOption) : Option (List (String × JsonValue)) :=
  let query := option.query
  match option.sliceId with
  | some sliceId =>
    match option.sliceSize with
    | some sliceSize =>
      some (setField query "slice"
        (.obj [("field", .str "_id"), ("id", .num sliceId), ("max", .num sliceSize)]))
    | none => none
  | none => some query

/-- The response-scanning loop of `V6.GetIndexes` (part_000 lines
410-416): for every line of the `_cat/indices` body, take the third
whitespace-separated field as an index name; `none` models the
index-out-of-range panic of `segments[2]`. -/
def GetIndexesScan : List String → Option (List String)
  | [] => some []
  | line :: rest =>
    match (goFields line).get? 2 with
    | none => none
    | some indexName => (GetIndexesScan rest).map (indexName :: ·)

/-- **C6 counterexample.**  A `create` document with an empty source map
serializes to the action metadata line alone — `len(body) > 0` fails —
so the output is not "an `index` action line followed by the document's
source as the body line". -/
theorem BulkBody_create_empty_source_no_body_line :
    BulkBody "idx" { id := "1", type := "_doc", source := [], op := .opCreate }
      = .ok [.obj [("index", .obj [("_index", .str "idx"), ("_id", .str "1"),
                                   ("_type", .str "_doc")])]]
    ∧ BulkBody "idx" { id := "1", type := "_doc", source := [], op := .opCreate }
      ≠ .ok [.obj [("index", .obj [("_index", .str "idx"), ("_id", .str "1"),
                                   ("_type", .str "_doc")])],
             .obj []] := by
  refine ⟨rfl, ?_⟩
  intro h
  rw [show BulkBody "idx" { id := "1", type := "_doc", source := [], op := .opCreate }
      = .ok [.obj [("index", .obj [("_index", .str "idx"), ("_id", .str "1"),
                                   ("_type", .str "_doc")])]] from rfl] at h
  simp at h

/-- **C6 (amended).**  For every document serialized by the typed (V6)
adapter's bulk-body encoder: `create` yields an `index` action line
followed by the source as the body line when the source is non-empty (an
empty source yields the action line alone); `update` yields an `update`
action line with body `{type: source}`; `delete` yields a `delete` action
line with no body line; the metadata always carries `_type`; any other op
is an error. -/
theorem BulkBody_op_encoding (index id1 ty : String) (src : List (String × JsonValue)) :
    BulkBody index { id := id1, type := ty, source := src, op := .opCreate }
      = .ok (.obj [("index", .obj [("_index", .str index), ("_id", .str id1),
                                   ("_type", .str ty)])]
          :: (if src.length > 0 then [JsonValue.obj src] else []))
    ∧ BulkBody index { id := id1, type := ty, source := src, op := .opUpdate }
      = .ok [.obj [("update", .obj [("_index", .str index), ("_id", .str id1),
                                    ("_type", .str ty)])],
             .obj [(ty, .obj src)]]
    ∧ BulkBody index { id := id1, type := ty, source := src, op := .opDelete }
      = .ok [.obj [("delete", .obj [("_index", .str index), ("_id", .str id1),
                                    ("_type", .str ty)])]]
    ∧ BulkBody index { id := id1, type := ty, source := src, op := .opOther }
      = .error "unknow action" :=
  ⟨rfl, rfl, rfl, rfl⟩

/-- **C7 counterexample.**  Status 201 is in the 2xx range, yet `Bulk`
and `IndexExisted` treat it as a `CLUSTER_ERROR`: success requires
exactly 200. -/
theorem Bulk_201_is_error :
    Bulk ⟨201, "created"⟩ = .error (.clusterError 201 "created")
    ∧ 200 ≤ 201
    ∧ 201 < 300
    ∧ IndexExisted ⟨201, "ok"⟩ = .error (.clusterError 201 "ok") :=
  ⟨rfl, by decide, by decide, rfl⟩

/-- **C7 (amended).**  The adapter operations return a `CLUSTER_ERROR`
carrying the status and the server message exactly when the status is not
200 (not: not in the 2xx range); `exists` maps 404 to `false` first and
answers `true` at 200. -/
theorem adapter_status_handling (res : HttpResponse) :
    (Bulk res = .ok () ↔ res.statusCode = 200)
    ∧ (Bulk res = .error (.clusterError res.statusCode res.body) ↔ res.statusCode ≠ 200)
    ∧ (CreateIndex res = .ok () ↔ res.statusCode = 200)
    ∧ (CreateIndex res = .error (.clusterError res.statusCode res.body) ↔ res.statusCode ≠ 200)
    ∧ IndexExisted res = (if res.statusCode = 404 then .ok false
        else if res.statusCode = 200 then .ok true
        else .error (.clusterError res.statusCode res.body)) := by
  by_cases h4 : res.statusCode = 404
  · have h2 : res.statusCode ≠ 200 := by omega
    simp [Bulk, CreateIndex, IndexExisted, formatError, h4, h2]
  · by_cases h2 : res.statusCode = 200
    · simp [Bulk, CreateIndex, IndexExisted, formatError, h4, h2]
    · simp [Bulk, CreateIndex, IndexExisted, formatError, h4, h2]

/-- Witness for the amended C7 at a concrete response: 200 succeeds, 500
is a cluster error with status and message, 404 on `exists` is `false`. -/
theorem adapter_status_handling_witness :
    Bulk ⟨200, "ok"⟩ = .ok ()
    ∧ Bulk ⟨500, "boom"⟩ = .error (.clusterError 500 "boom")
    ∧ IndexExisted ⟨404, "missing"⟩ = .ok false := by
  refine ⟨?_, ?_, ?_⟩
  · exact (adapter_status_handling ⟨200, "ok"⟩).1.2 rfl
  · exact (adapter_status_handling ⟨500, "boom"⟩).2.1.2 (by decide)
  · exact ((adapter_status_handling ⟨404, "missing"⟩).2.2.2.2).trans (by rfl)

/-- **C9.**  The V6 adapter's scroll opener builds the slice clause
`{field: "_id", id: *SliceId, max: *SliceSize}` whenever `SliceId` is
non-nil, unconditionally dereferencing `SliceSize`: with `SliceId` set and
`SliceSize` nil the construction is the nil-pointer dereference (`none`),
and with both set it adds exactly that clause to the copied query. -/
theorem NewScrollQuery_slice_requires_sliceSize (ss st i smax : Nat)
    (q : List (String × JsonValue)) (sf : List String) :
    NewScrollQuery ⟨ss, st, some i, none, q, sf⟩ = none
    ∧ NewScrollQuery ⟨ss, st, some i, some smax, q, sf⟩
        = some (setField q "slice"
            (.obj [("field", .str "_id"), ("id", .num i), ("max", .num smax)]))
    ∧ NewScrollQuery ⟨ss, st, none, none, q, sf⟩ = some q
    ∧ NewScrollQuery ⟨ss, st, none, some smax, q, sf⟩ = some q :=
  ⟨rfl, rfl, rfl, rfl⟩

/-- **C10.**  The V6 adapter's index catalogue scan takes the third
whitespace-separated field (`segments[2]`) of every line of the
`_cat/indices` response as an index name; it is total exactly under the
precondition that every scanned line has at least three fields, and any
line with fewer (one or two fields) makes the whole scan the
index-out-of-range panic. -/
theorem GetIndexesScan_takes_third_field :
    (∀ lines : List String, (∀ l ∈ lines, 3 ≤ (goFields l).length) →
        GetIndexesScan lines = some (lines.map (fun l => ((goFields l).get? 2).getD "")))
    ∧ (∀ (lines : List String) (l : String), l ∈ lines → (goFields l).length < 3 →
        GetIndexesScan lines = none) := by
  constructor
  · intro lines h
    induction lines with
    | nil => rfl
    | cons line rest ih =>
      have h3 : 3 ≤ (goFields line).length := h line (List.mem_cons_self line rest)
      cases hx : (goFields line).get? 2 with
      | none =>
        rw [List.get?_eq_none] at hx
        omega
      | some x =>
        simp only [GetIndexesScan, hx]
        rw [ih (fun l hl => h l (List.mem_cons_of_mem line hl))]
        rw [List.get?_eq_getElem?] at hx
        simp [hx]
  · intro lines l hl hlen
    induction lines with
    | nil => cases hl
    | cons line rest ih =>
      rcases List.mem_cons.1 hl with heq | hmem
      · subst heq
        have hnone : (goFields l).get? 2 = none := List.get?_eq_none.2 (by omega)
        rw [List.get?_eq_getElem?] at hnone
        simp [GetIndexesScan, hnone]
      · simp only [GetIndexesScan]
        cases hx : (goFields line).get? 2
        · rfl
        · rw [ih hmem]
          rfl

/-- Witness for C10: two well-formed catalogue lines yield their third
fields, and a two-field line makes the scan panic. -/
theorem GetIndexesScan_takes_third_field_witness :
    GetIndexesScan ["green open books uuid 1 1", "yellow open logs-1 u 1 1"]
      = some ["books", "logs-1"]
    ∧ GetIndexesScan ["green open"] = none := by
  constructor
  · exact (GetIndexesScan_takes_third_field.1
      ["green open books uuid 1 1", "yellow open logs-1 u 1 1"] (by decide)).trans (by decide)
  · exact GetIndexesScan_takes_third_field.2 ["green open"] "green open"
      (List.mem_cons_self _ _) (by decide)
